import Mathlib

/-!
Shallow embedding of the request-coordination and replicated-storage core of
the two-site library system (src/ga/storage.py, src/ga/oplog.py,
src/ga/replication.py, src/ga/server.py, src/gestor_central/router.py,
src/common/models.py, src/common/time_utils.py).

Modelling conventions:
* Civil dates (YYYY-MM-DD strings produced by `common.time_utils`) are
  represented as day numbers (`Nat`); `today_plus_days` becomes addition.
* The JSON files `books.json` / `loans.json` are the lists in `SMState`.
* Each `_write_json_file` call (write tmp file, atomic rename) either fully
  succeeds or leaves the target file untouched and raises.  Operations that
  perform file writes take one `Bool` per write: `true` means the write
  succeeds, `false` means it raises `IOError`, which the source catches in the
  operation's `except` block, returning an internal-error result.  The pure
  operations fix all flags to `true`.
* `log_message` calls, ZMQ transport, threads and locks are not modelled: the
  source serialises every storage/oplog operation under a re-entrant lock, so
  each operation is modelled as an atomic state transformer.
-/

/-- A record of `books.json`: `{codigo, titulo, disponible}`. -/
structure Book where
  codigo : String
  titulo : String
  disponible : Bool
deriving DecidableEq, Repr

/-- A record of `loans.json`: `{codigo, userId, dueDate, renovaciones}`.
`dueDate` is a civil-day number standing for the `YYYY-MM-DD` string. -/
structure Loan where
  codigo : String
  userId : String
  dueDate : Nat
  renovaciones : Nat
deriving DecidableEq, Repr

/-- The storage state owned by one site: contents of `books.json` and
`loans.json`. -/
structure SMState where
  books : List Book
  loans : List Loan
deriving DecidableEq, Repr

/-- The `metadata` dictionary of an SM reply.  The source puts `dueDate`
(renovar, checkAndLoan), `renovaciones` (renovar) or `available` (devolver)
inside it; absent keys are `none`. -/
structure SMMeta where
  dueDate : Option Nat := none
  renovaciones : Option Nat := none
  available : Option Bool := none
deriving DecidableEq, Repr

/-- An SM reply `{ok, reason, metadata}` as returned by
`GAStorage.renovar/devolver/checkAndLoan`. -/
structure SMResult where
  ok : Bool
  reason : Option String
  metadata : Option SMMeta
deriving DecidableEq, Repr

/-- `common.time_utils.today_plus_days` under the day-number abstraction:
today's date plus `n` civil days. -/
def todayPlusDays (today n : Nat) : Nat := today + n

/-- `GAStorage._find_book`: first book whose `codigo` matches. -/
def GAStorage.findBook (s : SMState) (codigo : String) : Option Book :=
  s.books.find? (fun b => b.codigo == codigo)

/-- `GAStorage._find_loan`: first loan matching `(codigo, userId)`. -/
def GAStorage.findLoan (s : SMState) (codigo userId : String) : Option Loan :=
  s.loans.find? (fun l => l.codigo == codigo && l.userId == userId)

/-- Core of `GAStorage._update_book_availability`: the Python `for`/`break`
loop sets `disponible` on the FIRST book whose `codigo` matches and leaves
every other record untouched. -/
def setAvailFirst : List Book → String → Bool → List Book
  | [], _, _ => []
  | b :: bs, codigo, v =>
    if b.codigo == codigo then { b with disponible := v } :: bs
    else b :: setAvailFirst bs codigo v

/-- `GAStorage._update_book_availability` as a state transformer. -/
def GAStorage.updateBookAvailability (s : SMState) (codigo : String) (disponible : Bool) : SMState :=
  { s with books := setAvailFirst s.books codigo disponible }

/-- `GAStorage._add_loan`: append `{codigo, userId, dueDate, renovaciones: 0}`. -/
def GAStorage.addLoan (s : SMState) (codigo userId : String) (dueDate : Nat) : SMState :=
  { s with loans := s.loans ++ [⟨codigo, userId, dueDate, 0⟩] }

/-- `GAStorage._remove_loan`: the list comprehension keeps every loan that
does NOT match `(codigo, userId)` (removes all matches). -/
def GAStorage.removeLoan (s : SMState) (codigo userId : String) : SMState :=
  { s with loans := s.loans.filter (fun l => !(l.codigo == codigo && l.userId == userId)) }

/-- Core of `GAStorage._update_loan_due_date`: the `for`/`break` loop sets
`dueDate` and increments `renovaciones` on the FIRST matching loan. -/
def setLoanDueDate : List Loan → String → String → Nat → List Loan
  | [], _, _, _ => []
  | l :: ls, codigo, userId, d =>
    if l.codigo == codigo && l.userId == userId then
      { l with dueDate := d, renovaciones := l.renovaciones + 1 } :: ls
    else l :: setLoanDueDate ls codigo userId d

/-- `GAStorage._update_loan_due_date` as a state transformer. -/
def GAStorage.updateLoanDueDate (s : SMState) (codigo userId : String) (d : Nat) : SMState :=
  { s with loans := setLoanDueDate s.loans codigo userId d }

/-- `GAStorage.renovar` with an explicit write outcome `w` for the single
`_update_loan_due_date` file write (the source's `id` argument is used only
for logging and is omitted).  `w = false` models the write raising `IOError`,
caught by the `except` block: the state is unchanged and an internal-error
result is returned. -/
def GAStorage.renovarW (w : Bool) (s : SMState) (codigo userId : String) (dueDateNew : Nat) :
    SMResult × SMState :=
  match GAStorage.findLoan s codigo userId with
  | none =>
    (⟨false, some s!"No active loan found for user {userId} and book {codigo}", none⟩, s)
  | some loan =>
    if loan.renovaciones ≥ 2 then
      (⟨false, some s!"Maximum renovations (2) already reached for book {codigo}", none⟩, s)
    else if w then
      (⟨true, none, some ⟨some dueDateNew, some (loan.renovaciones + 1), none⟩⟩,
        GAStorage.updateLoanDueDate s codigo userId dueDateNew)
    else
      (⟨false, some "Internal error", none⟩, s)

/-- `GAStorage.renovar` with all file writes succeeding. -/
def GAStorage.renovar (s : SMState) (codigo userId : String) (dueDateNew : Nat) :
    SMResult × SMState :=
  GAStorage.renovarW true s codigo userId dueDateNew

/-- `GAStorage.devolver` with explicit write outcomes: `wb` for the
`_update_book_availability` write to `books.json`, `wl` for the subsequent
`_remove_loan` write to `loans.json`.  The source performs the two writes in
that order inside one `try`; a failure of the second write leaves the first
write's effect on disk. -/
def GAStorage.devolverW (wb wl : Bool) (s : SMState) (codigo userId : String) :
    SMResult × SMState :=
  match GAStorage.findLoan s codigo userId with
  | none =>
    (⟨false, some s!"No active loan found for user {userId} and book {codigo}", none⟩, s)
  | some _ =>
    if wb then
      let s₁ := GAStorage.updateBookAvailability s codigo true
      if wl then
        (⟨true, none, some ⟨none, none, some true⟩⟩, GAStorage.removeLoan s₁ codigo userId)
      else
        (⟨false, some "Internal error", none⟩, s₁)
    else
      (⟨false, some "Internal error", none⟩, s)

/-- `GAStorage.devolver` with all file writes succeeding. -/
def GAStorage.devolver (s : SMState) (codigo userId : String) : SMResult × SMState :=
  GAStorage.devolverW true true s codigo userId

/-- `GAStorage.checkAndLoan` with explicit write outcomes: `wl` for the
`_add_loan` write to `loans.json`, `wb` for the subsequent
`_update_book_availability` write to `books.json` (that order in the source).
`today` is the wall-clock date used by `today_plus_days(14)`. -/
def GAStorage.checkAndLoanW (wl wb : Bool) (today : Nat) (s : SMState) (codigo userId : String) :
    SMResult × SMState :=
  match GAStorage.findBook s codigo with
  | none =>
    (⟨false, some s!"Book {codigo} not found", none⟩, s)
  | some book =>
    if book.disponible = false then
      (⟨false, some s!"Book {codigo} is not available", none⟩, s)
    else
      match GAStorage.findLoan s codigo userId with
      | some _ =>
        (⟨false, some s!"User {userId} already has book {codigo} loaned", none⟩, s)
      | none =>
        let dueDate := todayPlusDays today 14
        if wl then
          let s₁ := GAStorage.addLoan s codigo userId dueDate
          if wb then
            (⟨true, none, some ⟨some dueDate, none, none⟩⟩,
              GAStorage.updateBookAvailability s₁ codigo false)
          else
            (⟨false, some "Internal error", none⟩, s₁)
        else
          (⟨false, some "Internal error", none⟩, s)

/-- `GAStorage.checkAndLoan` with all file writes succeeding. -/
def GAStorage.checkAndLoan (today : Nat) (s : SMState) (codigo userId : String) :
    SMResult × SMState :=
  GAStorage.checkAndLoanW true true today s codigo userId

/-- An entry of `oplog.json`: `{id, op, codigo, userId, dueDateNew?, ts?,
remote?, source_node?}`.  `rid` is the source's `id` field (the client
`RequestId`); `remote` models the presence of the `"remote": True` marker
that `GAReplication._apply_remote_operation` adds (locally originated
entries carry no such key, modelled as `false`). -/
structure OpEntry where
  rid : String
  op : String
  codigo : String
  userId : String
  dueDateNew : Option Nat := none
  ts : Option Nat := none
  remote : Bool := false
  sourceNode : Option String := none
deriving DecidableEq, Repr

/-- The oplog state: the journal (`oplog.json`) together with the applied-ids
index (`applied_index.json`'s `applied_operations` list, mirrored by the
in-memory `_applied_operations` set — in the source both always hold the same
ids, so one list models both; membership is the set semantics). -/
structure GAOplog where
  journal : List OpEntry
  appliedOps : List String
deriving DecidableEq, Repr

/-- `GAOplog.append_operation`: returns `false` without writing when the id is
already applied; otherwise stamps `ts` (when absent) with the current time
`now`, appends to the journal, and records the id in the applied index. -/
def GAOplog.appendOperation (now : Nat) (o : GAOplog) (e : OpEntry) : Bool × GAOplog :=
  if o.appliedOps.contains e.rid then
    (false, o)
  else
    let stamped := if e.ts.isNone then { e with ts := some now } else e
    (true, ⟨o.journal ++ [stamped], o.appliedOps ++ [e.rid]⟩)

/-- `GAOplog.is_operation_applied`: membership in the applied-ids set. -/
def GAOplog.isOperationApplied (o : GAOplog) (rid : String) : Bool :=
  o.appliedOps.contains rid

/-- `GAOplog.truncate_oplog`: keep the last `keepLastN` journal entries and
rebuild the applied index as the set of ids of the survivors (the source
builds a Python set comprehension; `dedup` models its membership). -/
def GAOplog.truncateOplog (o : GAOplog) (keepLastN : Nat) : GAOplog :=
  if o.journal.length ≤ keepLastN then o
  else
    ⟨o.journal.drop (o.journal.length - keepLastN),
      ((o.journal.drop (o.journal.length - keepLastN)).map (fun e => e.rid)).dedup⟩

/-- The state of one GA node visible to the server handlers: storage plus
oplog. -/
structure NodeState where
  sm : SMState
  ol : GAOplog
deriving DecidableEq, Repr

/-- Output of one server handler call: the SM reply sent back to the actor,
the post-state of storage+oplog, and the operations published on the
outbound replication endpoint during the call. -/
structure StepOut where
  result : SMResult
  state : NodeState
  published : List OpEntry
deriving DecidableEq, Repr

/-- Python truthiness of a payload string field: `payload.get(k)` is falsy
when the key is missing (`None`) or the string is empty; both fail the
handler's `if not all([...])` check, so missing-or-empty is modelled as
`""`. -/
def fieldMissing (v : String) : Bool := v == ""

/-- `GAServer._handle_renovar`.  `w` is the write outcome for the storage
mutation; `now` stamps the oplog entry.  `dueDateNew = none` models a missing
`dueDateNew` key.  On `ok` the handler appends to the oplog and then calls
`replication.replicate_operation`, which publishes the operation (with the
`ts` the append stamped into the shared dict) — note that it publishes even
when the append was rejected as a duplicate.  `_publish_operation`'s
transport decorations (`source_node`, `replication_ts`) are not modelled. -/
def GAServer.handleRenovar (w : Bool) (now : Nat) (ns : NodeState)
    (rid codigo userId : String) (dueDateNew : Option Nat) : StepOut :=
  match dueDateNew with
  | none => ⟨⟨false, some "Missing required fields for renovar", none⟩, ns, []⟩
  | some d =>
    if fieldMissing rid || fieldMissing codigo || fieldMissing userId then
      ⟨⟨false, some "Missing required fields for renovar", none⟩, ns, []⟩
    else
      let (res, sm₁) := GAStorage.renovarW w ns.sm codigo userId d
      if res.ok then
        let entry : OpEntry :=
          { rid := rid, op := "RENOVAR", codigo := codigo, userId := userId,
            dueDateNew := some d }
        let (appended, ol₁) := GAOplog.appendOperation now ns.ol entry
        -- append_operation mutates the shared dict, stamping ts only when it
        -- actually appends; replicate_operation then publishes that dict.
        let pub := if appended then { entry with ts := some now } else entry
        ⟨res, ⟨sm₁, ol₁⟩, [pub]⟩
      else
        ⟨res, ⟨sm₁, ns.ol⟩, []⟩

/-- `GAServer._handle_devolver` (write outcomes `wb`, `wl` as in
`GAStorage.devolverW`). -/
def GAServer.handleDevolver (wb wl : Bool) (now : Nat) (ns : NodeState)
    (rid codigo userId : String) : StepOut :=
  if fieldMissing rid || fieldMissing codigo || fieldMissing userId then
    ⟨⟨false, some "Missing required fields for devolver", none⟩, ns, []⟩
  else
    let (res, sm₁) := GAStorage.devolverW wb wl ns.sm codigo userId
    if res.ok then
      let entry : OpEntry :=
        { rid := rid, op := "DEVOLVER", codigo := codigo, userId := userId }
      let (appended, ol₁) := GAOplog.appendOperation now ns.ol entry
      let pub := if appended then { entry with ts := some now } else entry
      ⟨res, ⟨sm₁, ol₁⟩, [pub]⟩
    else
      ⟨res, ⟨sm₁, ns.ol⟩, []⟩

/-- `GAServer._handle_checkAndLoan` (write outcomes `wl`, `wb` as in
`GAStorage.checkAndLoanW`). -/
def GAServer.handleCheckAndLoan (wl wb : Bool) (now today : Nat) (ns : NodeState)
    (rid codigo userId : String) : StepOut :=
  if fieldMissing rid || fieldMissing codigo || fieldMissing userId then
    ⟨⟨false, some "Missing required fields for checkAndLoan", none⟩, ns, []⟩
  else
    let (res, sm₁) := GAStorage.checkAndLoanW wl wb today ns.sm codigo userId
    if res.ok then
      let entry : OpEntry :=
        { rid := rid, op := "PRESTAR", codigo := codigo, userId := userId }
      let (appended, ol₁) := GAOplog.appendOperation now ns.ol entry
      let pub := if appended then { entry with ts := some now } else entry
      ⟨res, ⟨sm₁, ol₁⟩, [pub]⟩
    else
      ⟨res, ⟨sm₁, ns.ol⟩, []⟩

/-- Output of `GAReplication._apply_remote_operation`: its boolean return
value, the post-state, and what it published outbound (the source never
publishes from this path, which the `published` component makes explicit). -/
structure RemoteOut where
  applied : Bool
  state : NodeState
  published : List OpEntry
deriving DecidableEq, Repr

/-- The `op`-dispatch chain inside `_apply_remote_operation`: route to the
storage method carrying the incoming arguments (a remote PRESTAR recomputes
the due date from the local `today`); an unknown op type yields `none`.  A
missing `dueDateNew` on a remote RENOVAR is never produced by the publisher;
`getD 0` stands for that unreachable value. -/
def GAReplication.dispatchOp (today : Nat) (sm : SMState) (rop : OpEntry) :
    Option (SMResult × SMState) :=
  if rop.op == "RENOVAR" then
    some (GAStorage.renovar sm rop.codigo rop.userId (rop.dueDateNew.getD 0))
  else if rop.op == "DEVOLVER" then
    some (GAStorage.devolver sm rop.codigo rop.userId)
  else if rop.op == "PRESTAR" then
    some (GAStorage.checkAndLoan today sm rop.codigo rop.userId)
  else none

/-- `GAReplication._apply_remote_operation`: drop if the id is already
applied, otherwise dispatch by `op` via `dispatchOp`, and on `ok` append a
`remote: true` entry to the local oplog without republishing.  All file
writes succeed here (the source's `except` path returns `false` with
whatever partial state the storage call left, which the storage-level write
flags already cover). -/
def GAReplication.applyRemoteOperation (now today : Nat) (ns : NodeState) (rop : OpEntry) :
    RemoteOut :=
  if GAOplog.isOperationApplied ns.ol rop.rid then
    ⟨false, ns, []⟩
  else
    match GAReplication.dispatchOp today ns.sm rop with
    | none => ⟨false, ns, []⟩
    | some (res, sm₁) =>
      if res.ok then
        let entry : OpEntry :=
          { rid := rop.rid, op := rop.op, codigo := rop.codigo, userId := rop.userId,
            dueDateNew := rop.dueDateNew, ts := rop.ts, remote := true,
            sourceNode := rop.sourceNode }
        let (_, ol₁) := GAOplog.appendOperation now ns.ol entry
        ⟨true, ⟨sm₁, ol₁⟩, []⟩
      else
        ⟨false, ⟨sm₁, ns.ol⟩, []⟩

/-- `common.models.ClientRequest` after pydantic validation: `sedeId` is one
of `"A"`/`"B"`, `op` one of the three literals; `timestamp` is an integer. -/
structure ClientRequest where
  id : String
  sedeId : String
  userId : String
  op : String
  libroCodigo : String
  timestamp : Int
deriving DecidableEq, Repr

/-- `common.models.GCReply`: `{id, status, reason?, dueDate?}`. -/
structure GCReply where
  id : String
  status : String
  reason : Option String := none
  dueDate : Option Nat := none
deriving DecidableEq, Repr

/-- `common.models.ActorMessage`, the topic envelope
`{id, sedeId, userId, libroCodigo, op, dueDateNew?}`. -/
structure ActorMessage where
  id : String
  sedeId : String
  userId : String
  libroCodigo : String
  op : String
  dueDateNew : Option Nat := none
deriving DecidableEq, Repr

/-- `common.models.APRequest`: `{id, libroCodigo, userId}` sent to the Loan
actor. -/
structure APRequest where
  id : String
  libroCodigo : String
  userId : String
deriving DecidableEq, Repr

/-- `common.models.APReply`: `{ok, reason?, metadata?}` from the Loan actor. -/
structure APReply where
  ok : Bool
  reason : Option String := none
  metadata : Option SMMeta := none
deriving DecidableEq, Repr

/-- An incoming client request before validation: each JSON field may be
absent. -/
structure RawRequest where
  id : Option String := none
  sedeId : Option String := none
  userId : Option String := none
  op : Option String := none
  libroCodigo : Option String := none
  timestamp : Option Int := none
deriving DecidableEq, Repr

/-- Pydantic validation of `ClientRequest(**request_data)`: every required
field must be present, `sedeId` must be `"A"` or `"B"`, `op` one of
`RENOVAR`/`DEVOLVER`/`PRESTAR`.  `id` has a uuid4 default, modelled by the
`freshId` argument.  `none` models the `ValidationError` the router catches. -/
def parseClientRequest (freshId : String) (r : RawRequest) : Option ClientRequest :=
  match r.sedeId, r.userId, r.op, r.libroCodigo, r.timestamp with
  | some sede, some u, some op, some lc, some ts =>
    if (sede == "A" || sede == "B") &&
        (op == "RENOVAR" || op == "DEVOLVER" || op == "PRESTAR") then
      some ⟨r.id.getD freshId, sede, u, op, lc, ts⟩
    else none
  | _, _, _, _, _ => none

/-- Output of one `GCRouter.handle_request` call: topic publications
(topic name, envelope), requests forwarded to the Loan actor, and the reply
returned to the client. -/
structure RouterOut where
  published : List (String × ActorMessage)
  apRequests : List APRequest
  reply : GCReply
deriving DecidableEq, Repr

/-- `GCRouter._error_response`. -/
def GCRouter.errorResponse (rid reason : String) : GCReply :=
  ⟨rid, "ERROR", some reason, none⟩

/-- `GCRouter._handle_renovar`: compute `dueDateNew = today + 7`, publish one
envelope on the RENOVACION topic, reply RECIBIDO immediately. -/
def GCRouter.handleRenovar (today : Nat) (req : ClientRequest) : RouterOut :=
  let dueDateNew := todayPlusDays today 7
  let msg : ActorMessage :=
    ⟨req.id, req.sedeId, req.userId, req.libroCodigo, "RENOVAR", some dueDateNew⟩
  ⟨[("RENOVACION", msg)], [], ⟨req.id, "RECIBIDO", none, none⟩⟩

/-- `GCRouter._handle_devolver`: publish one envelope on the DEVOLUCION
topic, reply RECIBIDO immediately. -/
def GCRouter.handleDevolver (req : ClientRequest) : RouterOut :=
  let msg : ActorMessage :=
    ⟨req.id, req.sedeId, req.userId, req.libroCodigo, "DEVOLVER", none⟩
  ⟨[("DEVOLUCION", msg)], [], ⟨req.id, "RECIBIDO", none, none⟩⟩

/-- `GCRouter._handle_prestar`: in mock mode reply OK with `today + 14`;
otherwise send an `APRequest` to the Loan actor, await `apReply`, and map it
to OK (with `metadata.dueDate` when present) or ERROR. -/
def GCRouter.handlePrestar (today : Nat) (mockAp : Bool) (apReply : APReply)
    (req : ClientRequest) : RouterOut :=
  if mockAp then
    ⟨[], [], ⟨req.id, "OK", none, some (todayPlusDays today 14)⟩⟩
  else
    let apReq : APRequest := ⟨req.id, req.libroCodigo, req.userId⟩
    if apReply.ok then
      ⟨[], [apReq], ⟨req.id, "OK", none, apReply.metadata.bind (fun m => m.dueDate)⟩⟩
    else
      ⟨[], [apReq], ⟨req.id, "ERROR", apReply.reason, none⟩⟩

/-- `GCRouter.handle_request`: validate via `ClientRequest(**request_data)`
(failure replies ERROR using `request_data.get("id", "unknown")` with no
publication and no Loan-actor traffic), then route on `op`. -/
def GCRouter.handleRequest (today : Nat) (freshId : String) (mockAp : Bool)
    (apReply : APReply) (raw : RawRequest) : RouterOut :=
  match parseClientRequest freshId raw with
  | none =>
    ⟨[], [], GCRouter.errorResponse (raw.id.getD "unknown") "Invalid request"⟩
  | some req =>
    if req.op == "RENOVAR" then GCRouter.handleRenovar today req
    else if req.op == "DEVOLVER" then GCRouter.handleDevolver req
    else if req.op == "PRESTAR" then GCRouter.handlePrestar today mockAp apReply req
    else ⟨[], [], GCRouter.errorResponse req.id s!"Unknown operation: {req.op}"⟩

/-- Book-code uniqueness: no two catalog records share a `codigo` (the data
model identifies a Book by its unique code). -/
abbrev uniqueBooks (s : SMState) : Prop := (s.books.map (fun b => b.codigo)).Nodup

/-- Loan uniqueness (spec P1 restricted to codes): at most one loan per book
code. -/
abbrev uniqueLoans (s : SMState) : Prop := (s.loans.map (fun l => l.codigo)).Nodup

/-- Availability coherence (spec P2): a book is available iff no loan
references its code. -/
abbrev coherent (s : SMState) : Prop :=
  ∀ b ∈ s.books, (b.disponible = true ↔ b.codigo ∉ s.loans.map (fun l => l.codigo))

/-- Oplog index agreement (spec P5): the applied-ids set holds exactly the
ids present in the journal. -/
def olAgrees (o : GAOplog) : Prop :=
  ∀ rid : String, rid ∈ o.appliedOps ↔ rid ∈ o.journal.map (fun e => e.rid)

theorem setAvailFirst_map_codigo (l : List Book) (c : String) (v : Bool) :
    (setAvailFirst l c v).map (fun b => b.codigo) = l.map (fun b => b.codigo) := by
  induction l with
  | nil => rfl
  | cons b bs ih =>
    by_cases h : b.codigo == c
    · simp [setAvailFirst, h]
    · simp [setAvailFirst, h, ih]

theorem setAvailFirst_of_find?_none (l : List Book) (c : String) (v : Bool)
    (h : l.find? (fun b => b.codigo == c) = none) : setAvailFirst l c v = l := by
  induction l with
  | nil => rfl
  | cons b bs ih =>
    rw [List.find?_cons] at h
    by_cases hb : b.codigo == c
    · simp [hb] at h
    · simp only [hb] at h
      simp [setAvailFirst, hb, ih h]

theorem find?_setAvailFirst (l : List Book) (c : String) (v : Bool) (b₀ : Book)
    (h : l.find? (fun b => b.codigo == c) = some b₀) :
    (setAvailFirst l c v).find? (fun b => b.codigo == c) =
      some { b₀ with disponible := v } := by
  induction l with
  | nil => simp at h
  | cons b bs ih =>
    rw [List.find?_cons] at h
    by_cases hb : b.codigo == c
    · simp only [hb] at h
      cases h
      simp [setAvailFirst, hb, List.find?_cons]
    · simp only [hb] at h
      simp [setAvailFirst, hb, List.find?_cons, ih h]

theorem setAvailFirst_twice (l : List Book) (c : String) (b₀ : Book)
    (h : l.find? (fun b => b.codigo == c) = some b₀) (hd : b₀.disponible = true) :
    setAvailFirst (setAvailFirst l c false) c true = l := by
  induction l with
  | nil => simp at h
  | cons b bs ih =>
    rw [List.find?_cons] at h
    by_cases hb : b.codigo == c
    · simp only [hb] at h
      cases h
      simp only [setAvailFirst, hb, if_pos]
      have : ({ b₀ with disponible := true } : Book) = b₀ := by
        cases b₀; simp_all
      rw [this]
    · simp only [hb] at h
      simp [setAvailFirst, hb, ih h]

theorem setLoanDueDate_map_codigo (l : List Loan) (c u : String) (d : Nat) :
    (setLoanDueDate l c u d).map (fun x => x.codigo) = l.map (fun x => x.codigo) := by
  induction l with
  | nil => rfl
  | cons x xs ih =>
    by_cases h : x.codigo == c && x.userId == u
    · simp [setLoanDueDate, h]
    · simp [setLoanDueDate, h, ih]

theorem find?_setLoanDueDate (l : List Loan) (c u : String) (d : Nat) (l₀ : Loan)
    (h : l.find? (fun x => x.codigo == c && x.userId == u) = some l₀) :
    (setLoanDueDate l c u d).find? (fun x => x.codigo == c && x.userId == u) =
      some { l₀ with dueDate := d, renovaciones := l₀.renovaciones + 1 } := by
  induction l with
  | nil => simp at h
  | cons x xs ih =>
    rw [List.find?_cons] at h
    by_cases hx : x.codigo == c && x.userId == u
    · simp only [hx] at h
      cases h
      simp [setLoanDueDate, hx, List.find?_cons]
    · simp only [hx] at h
      simp [setLoanDueDate, hx, List.find?_cons, ih h]

theorem findLoan_removeLoan (s : SMState) (c u : String) :
    GAStorage.findLoan (GAStorage.removeLoan s c u) c u = none := by
  rw [GAStorage.findLoan, List.find?_eq_none]
  intro x hx
  rw [GAStorage.removeLoan] at hx
  simp only [List.mem_filter, Bool.not_eq_true'] at hx
  simp [hx.2]

theorem find?_append_none {α : Type} (l₁ l₂ : List α) (p : α → Bool)
    (h : l₁.find? p = none) : (l₁ ++ l₂).find? p = l₂.find? p := by
  induction l₁ with
  | nil => rfl
  | cons x xs ih =>
    rw [List.find?_cons] at h
    by_cases hx : p x
    · simp [hx] at h
    · simp only [hx] at h
      simp [List.find?_cons, hx, ih h]

theorem filter_id_of_find?_none {α : Type} (l : List α) (p : α → Bool)
    (h : l.find? p = none) : l.filter (fun x => !(p x)) = l := by
  rw [List.find?_eq_none] at h
  rw [List.filter_eq_self]
  intro x hx
  simpa using h x hx

theorem mem_setAvailFirst_uniq (l : List Book) (c : String) (v : Bool)
    (hu : (l.map (fun b => b.codigo)).Nodup) (x : Book) :
    x ∈ setAvailFirst l c v ↔
      ((x ∈ l ∧ x.codigo ≠ c) ∨
        (∃ b, b ∈ l ∧ b.codigo = c ∧ x = { b with disponible := v })) := by
  induction l with
  | nil => simp [setAvailFirst]
  | cons a as ih =>
    rw [List.map_cons, List.nodup_cons] at hu
    obtain ⟨ha, hu₂⟩ := hu
    by_cases hac : a.codigo = c
    · rw [setAvailFirst, if_pos (by simpa using hac)]
      constructor
      · intro hx
        rcases List.mem_cons.1 hx with hx | hx
        · exact Or.inr ⟨a, List.mem_cons_self a as, hac, hx⟩
        · refine Or.inl ⟨List.mem_cons_of_mem a hx, ?_⟩
          intro hxc
          have hmem : x.codigo ∈ as.map (fun b => b.codigo) :=
            List.mem_map_of_mem (fun b => b.codigo) hx
          rw [hxc, ← hac] at hmem
          exact ha hmem
      · intro hx
        rcases hx with ⟨hxl, hxc⟩ | ⟨b, hbl, hbc, hxb⟩
        · rcases List.mem_cons.1 hxl with rfl | hxl
          · exact absurd hac hxc
          · exact List.mem_cons_of_mem _ hxl
        · rcases List.mem_cons.1 hbl with rfl | hbl
          · rw [hxb]
            exact List.mem_cons_self _ _
          · have hmem : b.codigo ∈ as.map (fun b => b.codigo) :=
              List.mem_map_of_mem (fun b => b.codigo) hbl
            rw [hbc, ← hac] at hmem
            exact absurd hmem ha
    · rw [setAvailFirst, if_neg (by simpa using hac)]
      rw [List.mem_cons, ih hu₂]
      constructor
      · intro hx
        rcases hx with rfl | hx
        · exact Or.inl ⟨List.mem_cons_self _ _, hac⟩
        · rcases hx with ⟨h1, h2⟩ | ⟨b, h1, h2, h3⟩
          · exact Or.inl ⟨List.mem_cons_of_mem _ h1, h2⟩
          · exact Or.inr ⟨b, List.mem_cons_of_mem _ h1, h2, h3⟩
      · intro hx
        rcases hx with ⟨h1, h2⟩ | ⟨b, h1, h2, h3⟩
        · rcases List.mem_cons.1 h1 with rfl | h1
          · exact Or.inl rfl
          · exact Or.inr (Or.inl ⟨h1, h2⟩)
        · rcases List.mem_cons.1 h1 with rfl | h1
          · exact absurd h2 hac
          · exact Or.inr (Or.inr ⟨b, h1, h2, h3⟩)

theorem mem_removeLoan_iff (loans : List Loan) (c u : String) (x : Loan) :
    x ∈ loans.filter (fun l => !(l.codigo == c && l.userId == u)) ↔
      x ∈ loans ∧ ¬(x.codigo = c ∧ x.userId = u) := by
  rw [List.mem_filter]
  constructor
  · rintro ⟨h1, h2⟩
    have h2a : ¬x.codigo = c ∨ ¬x.userId = u := by simpa using h2
    refine ⟨h1, ?_⟩
    rintro ⟨hc, hu⟩
    rcases h2a with h | h
    · exact h hc
    · exact h hu
  · rintro ⟨h1, h2⟩
    refine ⟨h1, ?_⟩
    have h2a : ¬x.codigo = c ∨ ¬x.userId = u := by
      by_cases hc : x.codigo = c
      · right
        intro hu
        exact h2 ⟨hc, hu⟩
      · exact Or.inl hc
    simpa using h2a

theorem GAStorage.renovarW_ok_inv (w : Bool) (s : SMState) (c u : String) (d : Nat)
    (h : (GAStorage.renovarW w s c u d).1.ok = true) :
    w = true ∧ ∃ loan, GAStorage.findLoan s c u = some loan ∧
      loan.renovaciones < 2 ∧
      GAStorage.renovarW w s c u d =
        (⟨true, none, some ⟨some d, some (loan.renovaciones + 1), none⟩⟩,
          GAStorage.updateLoanDueDate s c u d) := by
  rcases hl : GAStorage.findLoan s c u with _ | loan
  · rw [GAStorage.renovarW, hl] at h
    simp at h
  · rw [GAStorage.renovarW, hl] at h ⊢
    by_cases hr : loan.renovaciones ≥ 2
    · simp [hr] at h
    · cases w with
      | false => simp [hr] at h
      | true =>
        refine ⟨rfl, loan, rfl, by omega, ?_⟩
        simp [hr]

theorem GAStorage.devolverW_ok_inv (wb wl : Bool) (s : SMState) (c u : String)
    (h : (GAStorage.devolverW wb wl s c u).1.ok = true) :
    wb = true ∧ wl = true ∧ ∃ loan, GAStorage.findLoan s c u = some loan ∧
      GAStorage.devolverW wb wl s c u =
        (⟨true, none, some ⟨none, none, some true⟩⟩,
          GAStorage.removeLoan (GAStorage.updateBookAvailability s c true) c u) := by
  rcases hl : GAStorage.findLoan s c u with _ | loan
  · rw [GAStorage.devolverW, hl] at h
    simp at h
  · rw [GAStorage.devolverW, hl] at h ⊢
    cases wb with
    | false => simp at h
    | true =>
      cases wl with
      | false => simp at h
      | true => exact ⟨rfl, rfl, loan, rfl, rfl⟩

theorem GAStorage.checkAndLoanW_ok_inv (wl wb : Bool) (today : Nat) (s : SMState)
    (c u : String)
    (h : (GAStorage.checkAndLoanW wl wb today s c u).1.ok = true) :
    wl = true ∧ wb = true ∧ ∃ b, GAStorage.findBook s c = some b ∧
      b.disponible = true ∧ GAStorage.findLoan s c u = none ∧
      GAStorage.checkAndLoanW wl wb today s c u =
        (⟨true, none, some ⟨some (todayPlusDays today 14), none, none⟩⟩,
          GAStorage.updateBookAvailability
            (GAStorage.addLoan s c u (todayPlusDays today 14)) c false) := by
  rcases hb : GAStorage.findBook s c with _ | b
  · rw [GAStorage.checkAndLoanW, hb] at h
    simp at h
  · rw [GAStorage.checkAndLoanW, hb] at h ⊢
    by_cases hd : b.disponible = false
    · simp [hd] at h
    · rcases hl : GAStorage.findLoan s c u with _ | loan
      · cases wl with
        | false => simp [hd, hl] at h
        | true =>
          cases wb with
          | false => simp [hd, hl] at h
          | true =>
            refine ⟨rfl, rfl, b, rfl, by simpa using hd, rfl, ?_⟩
            simp [hd]
      · simp [hd, hl] at h

/-- C3: `checkAndLoan(id, code, userId)` follows exactly the specified
algorithm: fail "book not found" when no book with that code exists;
otherwise fail "not available" when the book is not available; otherwise
fail "already loaned" when a loan `(code, userId)` exists; otherwise insert
the loan `{code, userId, dueDate = today + 14, renewals 0}`, set the book's
available flag to false, and return `ok = true` with `metadata.dueDate`
equal to that due date. -/
theorem checkAndLoan_follows_spec (today : Nat) (s : SMState) (c u : String) :
    (GAStorage.findBook s c = none →
      GAStorage.checkAndLoan today s c u =
        (⟨false, some s!"Book {c} not found", none⟩, s)) ∧
    (∀ b, GAStorage.findBook s c = some b → b.disponible = false →
      GAStorage.checkAndLoan today s c u =
        (⟨false, some s!"Book {c} is not available", none⟩, s)) ∧
    (∀ b, GAStorage.findBook s c = some b → b.disponible = true →
      ∀ l, GAStorage.findLoan s c u = some l →
        GAStorage.checkAndLoan today s c u =
          (⟨false, some s!"User {u} already has book {c} loaned", none⟩, s)) ∧
    (∀ b, GAStorage.findBook s c = some b → b.disponible = true →
      GAStorage.findLoan s c u = none →
        GAStorage.checkAndLoan today s c u =
          (⟨true, none, some ⟨some (todayPlusDays today 14), none, none⟩⟩,
            GAStorage.updateBookAvailability
              (GAStorage.addLoan s c u (todayPlusDays today 14)) c false)) := by
  refine ⟨?_, ?_, ?_, ?_⟩
  · intro h
    simp [GAStorage.checkAndLoan, GAStorage.checkAndLoanW, h]
  · intro b hb hd
    simp [GAStorage.checkAndLoan, GAStorage.checkAndLoanW, hb, hd]
  · intro b hb hd l hl
    simp [GAStorage.checkAndLoan, GAStorage.checkAndLoanW, hb, hd, hl]
  · intro b hb hd hl
    simp [GAStorage.checkAndLoan, GAStorage.checkAndLoanW, hb, hd, hl]

theorem checkAndLoan_follows_spec_witness :
    GAStorage.checkAndLoan 100 ⟨[⟨"B1", "T", true⟩], []⟩ "B1" "u1" =
      (⟨true, none, some ⟨some 114, none, none⟩⟩,
        GAStorage.updateBookAvailability
          (GAStorage.addLoan ⟨[⟨"B1", "T", true⟩], []⟩ "B1" "u1" 114) "B1" false) :=
  (checkAndLoan_follows_spec 100 ⟨[⟨"B1", "T", true⟩], []⟩ "B1" "u1").2.2.2
    ⟨"B1", "T", true⟩ (by decide) (by decide) (by decide)

theorem contains_iff_mem_str (l : List String) (a : String) :
    l.contains a = true ↔ a ∈ l := by
  simp [List.contains, List.elem_iff]

/-- C7: the operation log maintains, across every `appendOperation` and every
`truncate`, the invariant that the applied-operations set is exactly the set
of ids in the current journal window: a successful append adds the id (a
duplicate id returns `false` with no journal write), and truncation rebuilds
the set as exactly the ids of the retained tail, so every retained id still
answers `true` to `isOperationApplied`. -/
theorem oplog_applied_index_agreement (o : GAOplog) (now : Nat) (e : OpEntry) (n : Nat)
    (ho : olAgrees o) :
    olAgrees (GAOplog.appendOperation now o e).2 ∧
    (GAOplog.isOperationApplied o e.rid = true →
      GAOplog.appendOperation now o e = (false, o)) ∧
    olAgrees (GAOplog.truncateOplog o n) ∧
    (∀ rid, rid ∈ (GAOplog.truncateOplog o n).journal.map (fun x => x.rid) →
      GAOplog.isOperationApplied (GAOplog.truncateOplog o n) rid = true) := by
  refine ⟨?_, ?_, ?_, ?_⟩
  · by_cases hc : o.appliedOps.contains e.rid
    · rw [GAOplog.appendOperation, if_pos hc]
      exact ho
    · rw [GAOplog.appendOperation, if_neg hc]
      intro rid
      have hstamp : (if e.ts.isNone then { e with ts := some now } else e).rid = e.rid := by
        by_cases hts : e.ts.isNone <;> simp [hts]
      simp only [List.map_append, List.mem_append, List.map_cons, List.map_nil,
        List.mem_cons, List.not_mem_nil, or_false, hstamp]
      rw [ho rid]
  · intro hdup
    rw [GAOplog.isOperationApplied] at hdup
    rw [GAOplog.appendOperation, if_pos hdup]
  · by_cases hlen : o.journal.length ≤ n
    · rw [GAOplog.truncateOplog, if_pos hlen]
      exact ho
    · rw [GAOplog.truncateOplog, if_neg hlen]
      intro rid
      exact List.mem_dedup
  · intro rid hmem
    rw [GAOplog.isOperationApplied, contains_iff_mem_str]
    by_cases hlen : o.journal.length ≤ n
    · rw [GAOplog.truncateOplog, if_pos hlen] at hmem ⊢
      exact (ho rid).2 hmem
    · rw [GAOplog.truncateOplog, if_neg hlen] at hmem ⊢
      exact List.mem_dedup.2 hmem

theorem oplog_applied_index_agreement_witness :
    olAgrees ⟨[⟨"r1", "PRESTAR", "B1", "u1", none, some 5, false, none⟩], ["r1"]⟩ ∧
    (olAgrees (GAOplog.appendOperation 9
        ⟨[⟨"r1", "PRESTAR", "B1", "u1", none, some 5, false, none⟩], ["r1"]⟩
        ⟨"r1", "PRESTAR", "B1", "u1", none, none, false, none⟩).2 ∧
      (GAOplog.isOperationApplied
          ⟨[⟨"r1", "PRESTAR", "B1", "u1", none, some 5, false, none⟩], ["r1"]⟩ "r1" = true →
        GAOplog.appendOperation 9
          ⟨[⟨"r1", "PRESTAR", "B1", "u1", none, some 5, false, none⟩], ["r1"]⟩
          ⟨"r1", "PRESTAR", "B1", "u1", none, none, false, none⟩ =
          (false, ⟨[⟨"r1", "PRESTAR", "B1", "u1", none, some 5, false, none⟩], ["r1"]⟩)) ∧
      olAgrees (GAOplog.truncateOplog
        ⟨[⟨"r1", "PRESTAR", "B1", "u1", none, some 5, false, none⟩], ["r1"]⟩ 0) ∧
      (∀ rid, rid ∈ (GAOplog.truncateOplog
          ⟨[⟨"r1", "PRESTAR", "B1", "u1", none, some 5, false, none⟩], ["r1"]⟩ 0).journal.map
            (fun x => x.rid) →
        GAOplog.isOperationApplied (GAOplog.truncateOplog
          ⟨[⟨"r1", "PRESTAR", "B1", "u1", none, some 5, false, none⟩], ["r1"]⟩ 0) rid = true)) := by
  have hO : olAgrees ⟨[⟨"r1", "PRESTAR", "B1", "u1", none, some 5, false, none⟩], ["r1"]⟩ := by
    intro rid
    simp
  exact ⟨hO, oplog_applied_index_agreement _ 9 _ 0 hO⟩

theorem GAServer.handleRenovar_apply_ok (w : Bool) (now : Nat) (ns : NodeState)
    (rid c u : String) (d₀ : Nat) (res : SMResult) (sm₁ : SMState)
    (appended : Bool) (ol₁ : GAOplog)
    (hg : (fieldMissing rid || fieldMissing c || fieldMissing u) = false)
    (hre : GAStorage.renovarW w ns.sm c u d₀ = (res, sm₁))
    (hok : res.ok = true)
    (hap : GAOplog.appendOperation now ns.ol
      ⟨rid, "RENOVAR", c, u, some d₀, none, false, none⟩ = (appended, ol₁)) :
    GAServer.handleRenovar w now ns rid c u (some d₀) =
      ⟨res, ⟨sm₁, ol₁⟩,
        [if appended then ⟨rid, "RENOVAR", c, u, some d₀, some now, false, none⟩
          else ⟨rid, "RENOVAR", c, u, some d₀, none, false, none⟩]⟩ := by
  rw [GAServer.handleRenovar]
  simp [hg, hre, hok, hap]

theorem GAServer.handleRenovar_apply_fail (w : Bool) (now : Nat) (ns : NodeState)
    (rid c u : String) (d₀ : Nat) (res : SMResult) (sm₁ : SMState)
    (hg : (fieldMissing rid || fieldMissing c || fieldMissing u) = false)
    (hre : GAStorage.renovarW w ns.sm c u d₀ = (res, sm₁))
    (hok : res.ok = false) :
    GAServer.handleRenovar w now ns rid c u (some d₀) = ⟨res, ⟨sm₁, ns.ol⟩, []⟩ := by
  rw [GAServer.handleRenovar]
  simp [hg, hre, hok]

theorem GAServer.handleDevolver_apply_ok (wb wl : Bool) (now : Nat) (ns : NodeState)
    (rid c u : String) (res : SMResult) (sm₁ : SMState)
    (appended : Bool) (ol₁ : GAOplog)
    (hg : (fieldMissing rid || fieldMissing c || fieldMissing u) = false)
    (hre : GAStorage.devolverW wb wl ns.sm c u = (res, sm₁))
    (hok : res.ok = true)
    (hap : GAOplog.appendOperation now ns.ol
      ⟨rid, "DEVOLVER", c, u, none, none, false, none⟩ = (appended, ol₁)) :
    GAServer.handleDevolver wb wl now ns rid c u =
      ⟨res, ⟨sm₁, ol₁⟩,
        [if appended then ⟨rid, "DEVOLVER", c, u, none, some now, false, none⟩
          else ⟨rid, "DEVOLVER", c, u, none, none, false, none⟩]⟩ := by
  rw [GAServer.handleDevolver]
  simp [hg, hre, hok, hap]

theorem GAServer.handleDevolver_apply_fail (wb wl : Bool) (now : Nat) (ns : NodeState)
    (rid c u : String) (res : SMResult) (sm₁ : SMState)
    (hg : (fieldMissing rid || fieldMissing c || fieldMissing u) = false)
    (hre : GAStorage.devolverW wb wl ns.sm c u = (res, sm₁))
    (hok : res.ok = false) :
    GAServer.handleDevolver wb wl now ns rid c u = ⟨res, ⟨sm₁, ns.ol⟩, []⟩ := by
  rw [GAServer.handleDevolver]
  simp [hg, hre, hok]

theorem GAServer.handleCheckAndLoan_apply_ok (wl wb : Bool) (now today : Nat)
    (ns : NodeState) (rid c u : String) (res : SMResult) (sm₁ : SMState)
    (appended : Bool) (ol₁ : GAOplog)
    (hg : (fieldMissing rid || fieldMissing c || fieldMissing u) = false)
    (hre : GAStorage.checkAndLoanW wl wb today ns.sm c u = (res, sm₁))
    (hok : res.ok = true)
    (hap : GAOplog.appendOperation now ns.ol
      ⟨rid, "PRESTAR", c, u, none, none, false, none⟩ = (appended, ol₁)) :
    GAServer.handleCheckAndLoan wl wb now today ns rid c u =
      ⟨res, ⟨sm₁, ol₁⟩,
        [if appended then ⟨rid, "PRESTAR", c, u, none, some now, false, none⟩
          else ⟨rid, "PRESTAR", c, u, none, none, false, none⟩]⟩ := by
  rw [GAServer.handleCheckAndLoan]
  simp [hg, hre, hok, hap]

theorem GAServer.handleCheckAndLoan_apply_fail (wl wb : Bool) (now today : Nat)
    (ns : NodeState) (rid c u : String) (res : SMResult) (sm₁ : SMState)
    (hg : (fieldMissing rid || fieldMissing c || fieldMissing u) = false)
    (hre : GAStorage.checkAndLoanW wl wb today ns.sm c u = (res, sm₁))
    (hok : res.ok = false) :
    GAServer.handleCheckAndLoan wl wb now today ns rid c u =
      ⟨res, ⟨sm₁, ns.ol⟩, []⟩ := by
  rw [GAServer.handleCheckAndLoan]
  simp [hg, hre, hok]

/-- C6: a remote-applied operation is never republished.  The replication
subscriber's apply path publishes nothing on the outbound endpoint in any
branch; when it successfully applies an operation via SM it appends exactly
one entry to the local OL carrying the `remote: true` marker; and everything
the server handlers (the only callers of `replicate_operation`) publish is a
locally originated entry without the marker. -/
theorem remote_ops_never_republished :
    (∀ now today ns rop,
      (GAReplication.applyRemoteOperation now today ns rop).published = []) ∧
    (∀ now today ns rop,
      (GAReplication.applyRemoteOperation now today ns rop).applied = true →
        ∃ e, (GAReplication.applyRemoteOperation now today ns rop).state.ol.journal =
            ns.ol.journal ++ [e] ∧ e.remote = true ∧ e.rid = rop.rid) ∧
    (∀ w now ns rid c u d,
      ∀ e ∈ (GAServer.handleRenovar w now ns rid c u d).published, e.remote = false) ∧
    (∀ wb wl now ns rid c u,
      ∀ e ∈ (GAServer.handleDevolver wb wl now ns rid c u).published, e.remote = false) ∧
    (∀ wl wb now today ns rid c u,
      ∀ e ∈ (GAServer.handleCheckAndLoan wl wb now today ns rid c u).published,
        e.remote = false) := by
  refine ⟨?_, ?_, ?_, ?_, ?_⟩
  · intro now today ns rop
    rw [GAReplication.applyRemoteOperation]
    split
    · rfl
    · split
      · rfl
      · split <;> rfl
  · intro now today ns rop h
    rw [GAReplication.applyRemoteOperation] at h ⊢
    by_cases ha : GAOplog.isOperationApplied ns.ol rop.rid = true
    · rw [if_pos ha] at h
      simp at h
    · rw [if_neg ha] at h ⊢
      rcases hd : GAReplication.dispatchOp today ns.sm rop with _ | p
      · rw [hd] at h
        simp at h
      · obtain ⟨res, sm₁⟩ := p
        rw [hd] at h
        dsimp only at h ⊢
        by_cases hok : res.ok = true
        · rw [GAOplog.isOperationApplied] at ha
          rw [if_pos hok]
          dsimp only
          rw [GAOplog.appendOperation]
          rw [if_neg ha]
          refine ⟨_, rfl, ?_, ?_⟩
          · by_cases hts : rop.ts.isNone <;> simp [hts]
          · by_cases hts : rop.ts.isNone <;> simp [hts]
        · rw [if_neg hok] at h
          simp at h
  · intro w now ns rid c u d e he
    rcases d with _ | d₀
    · rw [GAServer.handleRenovar] at he
      simp at he
    · rw [GAServer.handleRenovar] at he
      split at he
      · simp at he
      · dsimp only at he
        split at he
        · simp only [List.mem_singleton] at he
          subst he
          split <;> rfl
        · simp at he
  · intro wb wl now ns rid c u e he
    rw [GAServer.handleDevolver] at he
    split at he
    · simp at he
    · dsimp only at he
      split at he
      · simp only [List.mem_singleton] at he
        subst he
        split <;> rfl
      · simp at he
  · intro wl wb now today ns rid c u e he
    rw [GAServer.handleCheckAndLoan] at he
    split at he
    · simp at he
    · dsimp only at he
      split at he
      · simp only [List.mem_singleton] at he
        subst he
        split <;> rfl
      · simp at he

theorem remote_ops_never_republished_witness :
    (GAReplication.applyRemoteOperation 9 100 ⟨⟨[⟨"B1", "T", true⟩], []⟩, ⟨[], []⟩⟩
      ⟨"r1", "PRESTAR", "B1", "u1", none, some 5, false, some "A"⟩).published = [] ∧
    (∃ e, (GAReplication.applyRemoteOperation 9 100 ⟨⟨[⟨"B1", "T", true⟩], []⟩, ⟨[], []⟩⟩
        ⟨"r1", "PRESTAR", "B1", "u1", none, some 5, false, some "A"⟩).state.ol.journal =
        (⟨[], []⟩ : GAOplog).journal ++ [e] ∧ e.remote = true ∧ e.rid = "r1") :=
  ⟨remote_ops_never_republished.1 9 100 ⟨⟨[⟨"B1", "T", true⟩], []⟩, ⟨[], []⟩⟩
      ⟨"r1", "PRESTAR", "B1", "u1", none, some 5, false, some "A"⟩,
    remote_ops_never_republished.2.1 9 100 ⟨⟨[⟨"B1", "T", true⟩], []⟩, ⟨[], []⟩⟩
      ⟨"r1", "PRESTAR", "B1", "u1", none, some 5, false, some "A"⟩ (by decide)⟩

/-- C9: for every client request whose `op` is unknown, whose `siteId` is not
A or B, or which is missing a required field, the coordinator replies
`status = ERROR` with a reason, publishes nothing on any topic and forwards
nothing to the Loan actor. -/
theorem invalid_request_rejected (today : Nat) (freshId : String) (mockAp : Bool)
    (apReply : APReply) (raw : RawRequest)
    (h : raw.sedeId = none ∨ raw.userId = none ∨ raw.op = none ∨
      raw.libroCodigo = none ∨ raw.timestamp = none ∨
      (∀ sede, raw.sedeId = some sede → sede ≠ "A" ∧ sede ≠ "B") ∨
      (∀ op, raw.op = some op → op ≠ "RENOVAR" ∧ op ≠ "DEVOLVER" ∧ op ≠ "PRESTAR")) :
    GCRouter.handleRequest today freshId mockAp apReply raw =
      ⟨[], [], GCRouter.errorResponse (raw.id.getD "unknown") "Invalid request"⟩ := by
  have hp : parseClientRequest freshId raw = none := by
    rcases hs : raw.sedeId with _ | sede
    · simp [parseClientRequest, hs]
    rcases hu : raw.userId with _ | u
    · simp [parseClientRequest, hs, hu]
    rcases hop : raw.op with _ | op
    · simp [parseClientRequest, hs, hu, hop]
    rcases hlc : raw.libroCodigo with _ | lc
    · simp [parseClientRequest, hs, hu, hop, hlc]
    rcases ht : raw.timestamp with _ | ts
    · simp [parseClientRequest, hs, hu, hop, hlc, ht]
    rcases h with h | h | h | h | h | h | h
    · rw [hs] at h
      exact absurd h (by simp)
    · rw [hu] at h
      exact absurd h (by simp)
    · rw [hop] at h
      exact absurd h (by simp)
    · rw [hlc] at h
      exact absurd h (by simp)
    · rw [ht] at h
      exact absurd h (by simp)
    · obtain ⟨hA, hB⟩ := h sede hs
      simp [parseClientRequest, hs, hu, hop, hlc, ht, hA, hB]
    · obtain ⟨h1, h2, h3⟩ := h op hop
      simp [parseClientRequest, hs, hu, hop, hlc, ht, h1, h2, h3]
  rw [GCRouter.handleRequest, hp]

theorem invalid_request_rejected_witness :
    GCRouter.handleRequest 100 "f-1" false ⟨true, none, none⟩
      ⟨some "r9", some "A", none, some "RENOVAR", some "B1", some 5⟩ =
      ⟨[], [], GCRouter.errorResponse "r9" "Invalid request"⟩ :=
  invalid_request_rejected 100 "f-1" false ⟨true, none, none⟩
    ⟨some "r9", some "A", none, some "RENOVAR", some "B1", some 5⟩
    (Or.inr (Or.inl rfl))

/-- C8: for every valid RENOVAR or DEVOLVER client request the coordinator
publishes exactly one envelope on the corresponding topic and immediately
replies `RECIBIDO` (the reply depends only on the request and `today`, never
on actor or SM state, and no Loan-actor traffic occurs); the RENOVAR
envelope carries `dueDateNew = today + 7` computed by the coordinator, and
the SM's `renovar` later stores exactly the carried value without
recomputing it (both in the loan record and in `metadata.dueDate`). -/
theorem cc_async_dispatch_renovar_devolver :
    (∀ today freshId mockAp apReply raw req,
      parseClientRequest freshId raw = some req → req.op = "RENOVAR" →
        GCRouter.handleRequest today freshId mockAp apReply raw =
          ⟨[("RENOVACION", ⟨req.id, req.sedeId, req.userId, req.libroCodigo, "RENOVAR",
              some (todayPlusDays today 7)⟩)], [],
            ⟨req.id, "RECIBIDO", none, none⟩⟩) ∧
    (∀ today freshId mockAp apReply raw req,
      parseClientRequest freshId raw = some req → req.op = "DEVOLVER" →
        GCRouter.handleRequest today freshId mockAp apReply raw =
          ⟨[("DEVOLUCION", ⟨req.id, req.sedeId, req.userId, req.libroCodigo, "DEVOLVER",
              none⟩)], [], ⟨req.id, "RECIBIDO", none, none⟩⟩) ∧
    (∀ s c u d, (GAStorage.renovar s c u d).1.ok = true →
      (GAStorage.renovar s c u d).1.metadata.bind (fun m => m.dueDate) = some d ∧
      ∃ l, GAStorage.findLoan (GAStorage.renovar s c u d).2 c u = some l ∧
        l.dueDate = d) := by
  refine ⟨?_, ?_, ?_⟩
  · intro today freshId mockAp apReply raw req hp hop
    rw [GCRouter.handleRequest, hp]
    simp [hop, GCRouter.handleRenovar]
  · intro today freshId mockAp apReply raw req hp hop
    rw [GCRouter.handleRequest, hp]
    simp [hop, GCRouter.handleDevolver]
  · intro s c u d h
    obtain ⟨-, loan, hl, -, heq⟩ := GAStorage.renovarW_ok_inv true s c u d h
    have h1 : (GAStorage.renovar s c u d).1 =
        ⟨true, none, some ⟨some d, some (loan.renovaciones + 1), none⟩⟩ := by
      rw [GAStorage.renovar, heq]
    have h2 : (GAStorage.renovar s c u d).2 = GAStorage.updateLoanDueDate s c u d := by
      rw [GAStorage.renovar, heq]
    refine ⟨by rw [h1]; rfl, ?_⟩
    rw [GAStorage.findLoan] at hl
    refine ⟨{ loan with dueDate := d, renovaciones := loan.renovaciones + 1 }, ?_, rfl⟩
    rw [h2, GAStorage.findLoan]
    exact find?_setLoanDueDate s.loans c u d loan hl

theorem cc_async_dispatch_renovar_devolver_witness :
    GCRouter.handleRequest 100 "f-1" false ⟨true, none, none⟩
      ⟨some "r1", some "A", some "u1", some "RENOVAR", some "B1", some 7⟩ =
      ⟨[("RENOVACION", ⟨"r1", "A", "u1", "B1", "RENOVAR", some 107⟩)], [],
        ⟨"r1", "RECIBIDO", none, none⟩⟩ ∧
    GCRouter.handleRequest 100 "f-1" false ⟨true, none, none⟩
      ⟨some "r2", some "B", some "u1", some "DEVOLVER", some "B1", some 7⟩ =
      ⟨[("DEVOLUCION", ⟨"r2", "B", "u1", "B1", "DEVOLVER", none⟩)], [],
        ⟨"r2", "RECIBIDO", none, none⟩⟩ ∧
    ((GAStorage.renovar ⟨[⟨"B1", "T", false⟩], [⟨"B1", "u1", 114, 0⟩]⟩ "B1" "u1" 107).1.metadata.bind
        (fun m => m.dueDate) = some 107 ∧
      ∃ l, GAStorage.findLoan
          (GAStorage.renovar ⟨[⟨"B1", "T", false⟩], [⟨"B1", "u1", 114, 0⟩]⟩ "B1" "u1" 107).2
          "B1" "u1" = some l ∧ l.dueDate = 107) :=
  ⟨cc_async_dispatch_renovar_devolver.1 100 "f-1" false ⟨true, none, none⟩
      ⟨some "r1", some "A", some "u1", some "RENOVAR", some "B1", some 7⟩
      ⟨"r1", "A", "u1", "RENOVAR", "B1", 7⟩ (by decide) rfl,
    cc_async_dispatch_renovar_devolver.2.1 100 "f-1" false ⟨true, none, none⟩
      ⟨some "r2", some "B", some "u1", some "DEVOLVER", some "B1", some 7⟩
      ⟨"r2", "B", "u1", "DEVOLVER", "B1", 7⟩ (by decide) rfl,
    cc_async_dispatch_renovar_devolver.2.2
      ⟨[⟨"B1", "T", false⟩], [⟨"B1", "u1", 114, 0⟩]⟩ "B1" "u1" 107 (by decide)⟩

/-- C2 counterexample: the claim "whenever an SM operation returns ok=false
— including internal/storage errors — Books and Loans are left exactly as
before" fails.  With book B1 loaned to u1, a devolver whose books.json write
succeeds but whose loans.json write fails returns ok=false yet has already
persisted the availability flip: the post-state differs from the pre-state. -/
theorem sm_failure_partial_state_counterexample :
    (GAStorage.devolverW true false ⟨[⟨"B1", "T", false⟩], [⟨"B1", "u1", 114, 0⟩]⟩
      "B1" "u1").1.ok = false ∧
    (GAStorage.devolverW true false ⟨[⟨"B1", "T", false⟩], [⟨"B1", "u1", 114, 0⟩]⟩
      "B1" "u1").2 ≠ ⟨[⟨"B1", "T", false⟩], [⟨"B1", "u1", 114, 0⟩]⟩ := by
  decide

/-- C2 amended: on any `ok=false` outcome no OL entry is appended and
nothing is published (handler level), and the storage state is: exactly the
pre-state for every business-rule failure and for any `renovar` failure
(single file write); for `devolver`/`checkAndLoan` storage errors, each file
is atomically old-or-new, so the state is either the pre-state (first write
failed) or the pre-state with only the first file's update applied
(books availability flipped / loan appended) when the second write fails. -/
theorem sm_failure_no_partial_state_amended :
    (∀ w s c u d, (GAStorage.renovarW w s c u d).1.ok = false →
      (GAStorage.renovarW w s c u d).2 = s) ∧
    (∀ wb wl s c u, (GAStorage.devolverW wb wl s c u).1.ok = false →
      (GAStorage.devolverW wb wl s c u).2 = s ∨
      (GAStorage.devolverW wb wl s c u).2 = GAStorage.updateBookAvailability s c true) ∧
    (∀ wl wb today s c u, (GAStorage.checkAndLoanW wl wb today s c u).1.ok = false →
      (GAStorage.checkAndLoanW wl wb today s c u).2 = s ∨
      (GAStorage.checkAndLoanW wl wb today s c u).2 =
        GAStorage.addLoan s c u (todayPlusDays today 14)) ∧
    (∀ w now ns rid c u d, (GAServer.handleRenovar w now ns rid c u d).result.ok = false →
      (GAServer.handleRenovar w now ns rid c u d).state.ol = ns.ol ∧
      (GAServer.handleRenovar w now ns rid c u d).published = []) ∧
    (∀ wb wl now ns rid c u, (GAServer.handleDevolver wb wl now ns rid c u).result.ok = false →
      (GAServer.handleDevolver wb wl now ns rid c u).state.ol = ns.ol ∧
      (GAServer.handleDevolver wb wl now ns rid c u).published = []) ∧
    (∀ wl wb now today ns rid c u,
      (GAServer.handleCheckAndLoan wl wb now today ns rid c u).result.ok = false →
      (GAServer.handleCheckAndLoan wl wb now today ns rid c u).state.ol = ns.ol ∧
      (GAServer.handleCheckAndLoan wl wb now today ns rid c u).published = []) := by
  refine ⟨?_, ?_, ?_, ?_, ?_, ?_⟩
  · intro w s c u d h
    rcases hl : GAStorage.findLoan s c u with _ | loan
    · rw [GAStorage.renovarW, hl]
    · rw [GAStorage.renovarW, hl] at h ⊢
      by_cases hr : loan.renovaciones ≥ 2
      · simp [hr]
      · cases w with
        | true => simp [hr] at h
        | false => simp [hr]
  · intro wb wl s c u h
    rcases hl : GAStorage.findLoan s c u with _ | loan
    · rw [GAStorage.devolverW, hl]
      exact Or.inl rfl
    · rw [GAStorage.devolverW, hl] at h ⊢
      cases wb with
      | false => exact Or.inl rfl
      | true =>
        cases wl with
        | true => simp at h
        | false => exact Or.inr rfl
  · intro wl wb today s c u h
    rcases hb : GAStorage.findBook s c with _ | b
    · rw [GAStorage.checkAndLoanW, hb]
      exact Or.inl rfl
    · rw [GAStorage.checkAndLoanW, hb] at h ⊢
      by_cases hd : b.disponible = false
      · left
        simp [hd]
      · rcases hl : GAStorage.findLoan s c u with _ | loan
        · cases wl with
          | false =>
            left
            simp [hd, hl]
          | true =>
            cases wb with
            | true => simp [hd, hl] at h
            | false =>
              right
              simp [hd, hl]
        · left
          simp [hd, hl]
  · intro w now ns rid c u d h
    rcases d with _ | d₀
    · rw [GAServer.handleRenovar] at h ⊢
      exact ⟨rfl, rfl⟩
    · by_cases hg : (fieldMissing rid || fieldMissing c || fieldMissing u) = true
      · rw [GAServer.handleRenovar, if_pos hg]
        exact ⟨rfl, rfl⟩
      · rcases hre : GAStorage.renovarW w ns.sm c u d₀ with ⟨res, sm₁⟩
        by_cases hok : res.ok = true
        · rcases hap : GAOplog.appendOperation now ns.ol
              ⟨rid, "RENOVAR", c, u, some d₀, none, false, none⟩ with ⟨appended, ol₁⟩
          rw [GAServer.handleRenovar_apply_ok w now ns rid c u d₀ res sm₁ appended ol₁
            (by simpa using hg) hre hok hap] at h
          rw [hok] at h
          simp at h
        · rw [GAServer.handleRenovar_apply_fail w now ns rid c u d₀ res sm₁
            (by simpa using hg) hre (by simpa using hok)]
          exact ⟨rfl, rfl⟩
  · intro wb wl now ns rid c u h
    by_cases hg : (fieldMissing rid || fieldMissing c || fieldMissing u) = true
    · rw [GAServer.handleDevolver, if_pos hg]
      exact ⟨rfl, rfl⟩
    · rcases hre : GAStorage.devolverW wb wl ns.sm c u with ⟨res, sm₁⟩
      by_cases hok : res.ok = true
      · rcases hap : GAOplog.appendOperation now ns.ol
            ⟨rid, "DEVOLVER", c, u, none, none, false, none⟩ with ⟨appended, ol₁⟩
        rw [GAServer.handleDevolver_apply_ok wb wl now ns rid c u res sm₁ appended ol₁
          (by simpa using hg) hre hok hap] at h
        rw [hok] at h
        simp at h
      · rw [GAServer.handleDevolver_apply_fail wb wl now ns rid c u res sm₁
          (by simpa using hg) hre (by simpa using hok)]
        exact ⟨rfl, rfl⟩
  · intro wl wb now today ns rid c u h
    by_cases hg : (fieldMissing rid || fieldMissing c || fieldMissing u) = true
    · rw [GAServer.handleCheckAndLoan, if_pos hg]
      exact ⟨rfl, rfl⟩
    · rcases hre : GAStorage.checkAndLoanW wl wb today ns.sm c u with ⟨res, sm₁⟩
      by_cases hok : res.ok = true
      · rcases hap : GAOplog.appendOperation now ns.ol
            ⟨rid, "PRESTAR", c, u, none, none, false, none⟩ with ⟨appended, ol₁⟩
        rw [GAServer.handleCheckAndLoan_apply_ok wl wb now today ns rid c u res sm₁
          appended ol₁ (by simpa using hg) hre hok hap] at h
        rw [hok] at h
        simp at h
      · rw [GAServer.handleCheckAndLoan_apply_fail wl wb now today ns rid c u res sm₁
          (by simpa using hg) hre (by simpa using hok)]
        exact ⟨rfl, rfl⟩

theorem sm_failure_no_partial_state_amended_witness :
    (GAStorage.renovarW false ⟨[⟨"B1", "T", false⟩], [⟨"B1", "u1", 114, 0⟩]⟩
      "B1" "u1" 121).2 = ⟨[⟨"B1", "T", false⟩], [⟨"B1", "u1", 114, 0⟩]⟩ ∧
    ((GAStorage.devolverW true false ⟨[⟨"B1", "T", false⟩], [⟨"B1", "u1", 114, 0⟩]⟩
        "B1" "u1").2 = ⟨[⟨"B1", "T", false⟩], [⟨"B1", "u1", 114, 0⟩]⟩ ∨
      (GAStorage.devolverW true false ⟨[⟨"B1", "T", false⟩], [⟨"B1", "u1", 114, 0⟩]⟩
        "B1" "u1").2 = GAStorage.updateBookAvailability
          ⟨[⟨"B1", "T", false⟩], [⟨"B1", "u1", 114, 0⟩]⟩ "B1" true) ∧
    ((GAServer.handleDevolver false false 9
        ⟨⟨[⟨"B1", "T", false⟩], [⟨"B1", "u1", 114, 0⟩]⟩, ⟨[], []⟩⟩ "r7" "B1" "u1").state.ol =
      (⟨[], []⟩ : GAOplog) ∧
      (GAServer.handleDevolver false false 9
        ⟨⟨[⟨"B1", "T", false⟩], [⟨"B1", "u1", 114, 0⟩]⟩, ⟨[], []⟩⟩ "r7" "B1" "u1").published = []) :=
  ⟨sm_failure_no_partial_state_amended.1 false ⟨[⟨"B1", "T", false⟩], [⟨"B1", "u1", 114, 0⟩]⟩
      "B1" "u1" 121 (by decide),
    sm_failure_no_partial_state_amended.2.1 true false
      ⟨[⟨"B1", "T", false⟩], [⟨"B1", "u1", 114, 0⟩]⟩ "B1" "u1" (by decide),
    sm_failure_no_partial_state_amended.2.2.2.2.1 false false 9
      ⟨⟨[⟨"B1", "T", false⟩], [⟨"B1", "u1", 114, 0⟩]⟩, ⟨[], []⟩⟩ "r7" "B1" "u1" (by decide)⟩

/-- C1 counterexample: redelivery of an accepted RENOVAR to the SM request
handler is NOT a no-op on state.  After `handleRenovar` accepts id r1 (one
OL entry, `renovaciones = 1`), delivering the identical operation again is
accepted again by the handler (no idempotency check on the local path) and
increments `renovaciones` to 2: the storage state changes. -/
theorem renovar_retry_counterexample :
    (GAServer.handleRenovar true 9
      ⟨⟨[⟨"B1", "T", false⟩], [⟨"B1", "u1", 114, 0⟩]⟩, ⟨[], []⟩⟩
      "r1" "B1" "u1" (some 121)).result.ok = true ∧
    GAOplog.isOperationApplied
      (GAServer.handleRenovar true 9
        ⟨⟨[⟨"B1", "T", false⟩], [⟨"B1", "u1", 114, 0⟩]⟩, ⟨[], []⟩⟩
        "r1" "B1" "u1" (some 121)).state.ol "r1" = true ∧
    (GAServer.handleRenovar true 10
      (GAServer.handleRenovar true 9
        ⟨⟨[⟨"B1", "T", false⟩], [⟨"B1", "u1", 114, 0⟩]⟩, ⟨[], []⟩⟩
        "r1" "B1" "u1" (some 121)).state
      "r1" "B1" "u1" (some 121)).result.ok = true ∧
    (GAServer.handleRenovar true 10
      (GAServer.handleRenovar true 9
        ⟨⟨[⟨"B1", "T", false⟩], [⟨"B1", "u1", 114, 0⟩]⟩, ⟨[], []⟩⟩
        "r1" "B1" "u1" (some 121)).state
      "r1" "B1" "u1" (some 121)).state.sm ≠
      (GAServer.handleRenovar true 9
        ⟨⟨[⟨"B1", "T", false⟩], [⟨"B1", "u1", 114, 0⟩]⟩, ⟨[], []⟩⟩
        "r1" "B1" "u1" (some 121)).state.sm := by
  decide

/-- C1 amended: a remote delivery of an already-applied id through the
Replicator is dropped with no state change, no OL entry and no publication;
a local retry of an accepted DEVOLVER or PRESTAR through the SM request
handler is rejected by the business checks (no-loan / not-available) with no
state change and no OL entry; and no redelivery with an already-applied id —
including an accepted RENOVAR retried locally, which IS re-applied to
storage — ever appends a second OL entry. -/
theorem idempotent_redelivery_amended :
    (∀ now today ns rop, GAOplog.isOperationApplied ns.ol rop.rid = true →
      GAReplication.applyRemoteOperation now today ns rop = ⟨false, ns, []⟩) ∧
    (∀ wb wl wb₂ wl₂ now now₂ ns rid c u,
      (GAServer.handleDevolver wb wl now ns rid c u).result.ok = true →
      GAServer.handleDevolver wb₂ wl₂ now₂
          (GAServer.handleDevolver wb wl now ns rid c u).state rid c u =
        ⟨⟨false, some s!"No active loan found for user {u} and book {c}", none⟩,
          (GAServer.handleDevolver wb wl now ns rid c u).state, []⟩) ∧
    (∀ wl wb wl₂ wb₂ now now₂ today today₂ ns rid c u,
      (GAServer.handleCheckAndLoan wl wb now today ns rid c u).result.ok = true →
      GAServer.handleCheckAndLoan wl₂ wb₂ now₂ today₂
          (GAServer.handleCheckAndLoan wl wb now today ns rid c u).state rid c u =
        ⟨⟨false, some s!"Book {c} is not available", none⟩,
          (GAServer.handleCheckAndLoan wl wb now today ns rid c u).state, []⟩) ∧
    (∀ w now ns rid c u d, GAOplog.isOperationApplied ns.ol rid = true →
      (GAServer.handleRenovar w now ns rid c u d).state.ol = ns.ol) := by
  refine ⟨?_, ?_, ?_, ?_⟩
  · intro now today ns rop h
    rw [GAReplication.applyRemoteOperation, if_pos h]
  · intro wb wl wb₂ wl₂ now now₂ ns rid c u h
    by_cases hg : (fieldMissing rid || fieldMissing c || fieldMissing u) = true
    · rw [GAServer.handleDevolver, if_pos hg] at h
      simp at h
    · rcases hre : GAStorage.devolverW wb wl ns.sm c u with ⟨res, sm₁⟩
      by_cases hok : res.ok = true
      · have hsok : (GAStorage.devolverW wb wl ns.sm c u).1.ok = true := by
          rw [hre]
          exact hok
        obtain ⟨hwb, hwl, loan, hl, heq⟩ := GAStorage.devolverW_ok_inv wb wl ns.sm c u hsok
        subst hwb
        subst hwl
        rw [heq] at hre
        cases hre
        rcases hap : GAOplog.appendOperation now ns.ol
            ⟨rid, "DEVOLVER", c, u, none, none, false, none⟩ with ⟨appended, ol₁⟩
        have happly := GAServer.handleDevolver_apply_ok true true now ns rid c u _ _
          appended ol₁ (by simpa using hg) heq rfl hap
        rw [happly]
        dsimp only
        have hfl₂ : GAStorage.findLoan
            (GAStorage.removeLoan (GAStorage.updateBookAvailability ns.sm c true) c u) c u =
            none := findLoan_removeLoan _ c u
        have hret : GAStorage.devolverW wb₂ wl₂
            (GAStorage.removeLoan (GAStorage.updateBookAvailability ns.sm c true) c u) c u =
            (⟨false, some s!"No active loan found for user {u} and book {c}", none⟩,
              GAStorage.removeLoan (GAStorage.updateBookAvailability ns.sm c true) c u) := by
          rw [GAStorage.devolverW, hfl₂]
        rw [GAServer.handleDevolver_apply_fail wb₂ wl₂ now₂
          ⟨GAStorage.removeLoan (GAStorage.updateBookAvailability ns.sm c true) c u, ol₁⟩
          rid c u _ _ (by simpa using hg) hret rfl]
      · have happly := GAServer.handleDevolver_apply_fail wb wl now ns rid c u res sm₁
          (by simpa using hg) hre (by simpa using hok)
        rw [happly] at h
        exact absurd h hok
  · intro wl wb wl₂ wb₂ now now₂ today today₂ ns rid c u h
    by_cases hg : (fieldMissing rid || fieldMissing c || fieldMissing u) = true
    · rw [GAServer.handleCheckAndLoan, if_pos hg] at h
      simp at h
    · rcases hre : GAStorage.checkAndLoanW wl wb today ns.sm c u with ⟨res, sm₁⟩
      by_cases hok : res.ok = true
      · have hsok : (GAStorage.checkAndLoanW wl wb today ns.sm c u).1.ok = true := by
          rw [hre]
          exact hok
        obtain ⟨hwl, hwb, b, hb, hd, hl, heq⟩ :=
          GAStorage.checkAndLoanW_ok_inv wl wb today ns.sm c u hsok
        subst hwl
        subst hwb
        rw [heq] at hre
        cases hre
        rcases hap : GAOplog.appendOperation now ns.ol
            ⟨rid, "PRESTAR", c, u, none, none, false, none⟩ with ⟨appended, ol₁⟩
        have happly := GAServer.handleCheckAndLoan_apply_ok true true now today ns rid c u _ _
          appended ol₁ (by simpa using hg) heq rfl hap
        rw [happly]
        dsimp only
        have hb₂ : GAStorage.findBook
            (GAStorage.updateBookAvailability
              (GAStorage.addLoan ns.sm c u (todayPlusDays today 14)) c false) c =
            some { b with disponible := false } := by
          rw [GAStorage.findBook]
          show (setAvailFirst ns.sm.books c false).find? (fun x => x.codigo == c) =
            some { b with disponible := false }
          refine find?_setAvailFirst ns.sm.books c false b ?_
          rw [GAStorage.findBook] at hb
          exact hb
        have hret : GAStorage.checkAndLoanW wl₂ wb₂ today₂
            (GAStorage.updateBookAvailability
              (GAStorage.addLoan ns.sm c u (todayPlusDays today 14)) c false) c u =
            (⟨false, some s!"Book {c} is not available", none⟩,
              GAStorage.updateBookAvailability
                (GAStorage.addLoan ns.sm c u (todayPlusDays today 14)) c false) := by
          rw [GAStorage.checkAndLoanW, hb₂]
          simp
        rw [GAServer.handleCheckAndLoan_apply_fail wl₂ wb₂ now₂ today₂
          ⟨GAStorage.updateBookAvailability
            (GAStorage.addLoan ns.sm c u (todayPlusDays today 14)) c false, ol₁⟩
          rid c u _ _ (by simpa using hg) hret rfl]
      · have happly := GAServer.handleCheckAndLoan_apply_fail wl wb now today ns rid c u res sm₁
          (by simpa using hg) hre (by simpa using hok)
        rw [happly] at h
        exact absurd h hok
  · intro w now ns rid c u d hdup
    rcases d with _ | d₀
    · rw [GAServer.handleRenovar]
    · by_cases hg : (fieldMissing rid || fieldMissing c || fieldMissing u) = true
      · rw [GAServer.handleRenovar, if_pos hg]
      · rcases hre : GAStorage.renovarW w ns.sm c u d₀ with ⟨res, sm₁⟩
        by_cases hok : res.ok = true
        · have hap : GAOplog.appendOperation now ns.ol
              ⟨rid, "RENOVAR", c, u, some d₀, none, false, none⟩ = (false, ns.ol) := by
            rw [GAOplog.isOperationApplied] at hdup
            rw [GAOplog.appendOperation, if_pos hdup]
          rw [GAServer.handleRenovar_apply_ok w now ns rid c u d₀ res sm₁ false ns.ol
            (by simpa using hg) hre hok hap]
        · rw [GAServer.handleRenovar_apply_fail w now ns rid c u d₀ res sm₁
            (by simpa using hg) hre (by simpa using hok)]

theorem idempotent_redelivery_amended_witness :
    GAReplication.applyRemoteOperation 10 100
      ⟨⟨[⟨"B1", "T", false⟩], [⟨"B1", "u1", 114, 1⟩]⟩,
        ⟨[⟨"r1", "RENOVAR", "B1", "u1", some 121, some 9, false, none⟩], ["r1"]⟩⟩
      ⟨"r1", "RENOVAR", "B1", "u1", some 121, some 9, false, some "B"⟩ =
      ⟨false, ⟨⟨[⟨"B1", "T", false⟩], [⟨"B1", "u1", 114, 1⟩]⟩,
        ⟨[⟨"r1", "RENOVAR", "B1", "u1", some 121, some 9, false, none⟩], ["r1"]⟩⟩, []⟩ ∧
    GAServer.handleDevolver true true 10
        (GAServer.handleDevolver true true 9
          ⟨⟨[⟨"B1", "T", false⟩], [⟨"B1", "u1", 114, 0⟩]⟩, ⟨[], []⟩⟩
          "r7" "B1" "u1").state "r7" "B1" "u1" =
      ⟨⟨false, some "No active loan found for user u1 and book B1", none⟩,
        (GAServer.handleDevolver true true 9
          ⟨⟨[⟨"B1", "T", false⟩], [⟨"B1", "u1", 114, 0⟩]⟩, ⟨[], []⟩⟩
          "r7" "B1" "u1").state, []⟩ ∧
    GAServer.handleCheckAndLoan true true 10 101
        (GAServer.handleCheckAndLoan true true 9 100
          ⟨⟨[⟨"B1", "T", true⟩], []⟩, ⟨[], []⟩⟩ "r8" "B1" "u1").state "r8" "B1" "u1" =
      ⟨⟨false, some "Book B1 is not available", none⟩,
        (GAServer.handleCheckAndLoan true true 9 100
          ⟨⟨[⟨"B1", "T", true⟩], []⟩, ⟨[], []⟩⟩ "r8" "B1" "u1").state, []⟩ ∧
    (GAServer.handleRenovar true 10
      ⟨⟨[⟨"B1", "T", false⟩], [⟨"B1", "u1", 114, 1⟩]⟩,
        ⟨[⟨"r1", "RENOVAR", "B1", "u1", some 121, some 9, false, none⟩], ["r1"]⟩⟩
      "r1" "B1" "u1" (some 121)).state.ol =
      (⟨[⟨"r1", "RENOVAR", "B1", "u1", some 121, some 9, false, none⟩], ["r1"]⟩ : GAOplog) :=
  ⟨idempotent_redelivery_amended.1 10 100
      ⟨⟨[⟨"B1", "T", false⟩], [⟨"B1", "u1", 114, 1⟩]⟩,
        ⟨[⟨"r1", "RENOVAR", "B1", "u1", some 121, some 9, false, none⟩], ["r1"]⟩⟩
      ⟨"r1", "RENOVAR", "B1", "u1", some 121, some 9, false, some "B"⟩ (by decide),
    idempotent_redelivery_amended.2.1 true true true true 9 10
      ⟨⟨[⟨"B1", "T", false⟩], [⟨"B1", "u1", 114, 0⟩]⟩, ⟨[], []⟩⟩
      "r7" "B1" "u1" (by decide),
    idempotent_redelivery_amended.2.2.1 true true true true 9 10 100 101
      ⟨⟨[⟨"B1", "T", true⟩], []⟩, ⟨[], []⟩⟩ "r8" "B1" "u1" (by decide),
    idempotent_redelivery_amended.2.2.2 true 10
      ⟨⟨[⟨"B1", "T", false⟩], [⟨"B1", "u1", 114, 1⟩]⟩,
        ⟨[⟨"r1", "RENOVAR", "B1", "u1", some 121, some 9, false, none⟩], ["r1"]⟩⟩
      "r1" "B1" "u1" (some 121) (by decide)⟩

/-- C4 counterexample: the claim quantifies over every state satisfying loan
uniqueness and availability coherence, but such a state may carry two book
records with the same code (both available, no loans: coherent and
loan-unique).  A successful `checkAndLoan` flips only the FIRST matching
record (`_update_book_availability` breaks after one hit), leaving the
second record available while a loan now references its code — coherence is
broken in the post-state. -/
theorem sm_invariant_counterexample :
    uniqueLoans ⟨[⟨"B1", "T", true⟩, ⟨"B1", "T2", true⟩], []⟩ ∧
    coherent ⟨[⟨"B1", "T", true⟩, ⟨"B1", "T2", true⟩], []⟩ ∧
    (GAStorage.checkAndLoan 100
      ⟨[⟨"B1", "T", true⟩, ⟨"B1", "T2", true⟩], []⟩ "B1" "u1").1.ok = true ∧
    ¬ coherent (GAStorage.checkAndLoan 100
      ⟨[⟨"B1", "T", true⟩, ⟨"B1", "T2", true⟩], []⟩ "B1" "u1").2 := by
  refine ⟨by decide, by decide, by decide, by decide⟩

/-- C4 amended: adding the data model's book-code uniqueness to the
hypotheses (the claim's two invariants alone admit duplicate catalog codes,
which the first-match update breaks), every SM operation preserves all three
invariants: book-code uniqueness, at-most-one-loan-per-code, and
availability coherence. -/
theorem sm_operations_preserve_invariants (s : SMState)
    (hub : uniqueBooks s) (hul : uniqueLoans s) (hco : coherent s) :
    (∀ c u d, uniqueBooks (GAStorage.renovar s c u d).2 ∧
      uniqueLoans (GAStorage.renovar s c u d).2 ∧
      coherent (GAStorage.renovar s c u d).2) ∧
    (∀ c u, uniqueBooks (GAStorage.devolver s c u).2 ∧
      uniqueLoans (GAStorage.devolver s c u).2 ∧
      coherent (GAStorage.devolver s c u).2) ∧
    (∀ today c u, uniqueBooks (GAStorage.checkAndLoan today s c u).2 ∧
      uniqueLoans (GAStorage.checkAndLoan today s c u).2 ∧
      coherent (GAStorage.checkAndLoan today s c u).2) := by
  refine ⟨?_, ?_, ?_⟩
  · intro c u d
    rcases hl : GAStorage.findLoan s c u with _ | loan
    · have hpost : (GAStorage.renovar s c u d).2 = s := by
        rw [GAStorage.renovar, GAStorage.renovarW, hl]
      rw [hpost]
      exact ⟨hub, hul, hco⟩
    · by_cases hr : loan.renovaciones ≥ 2
      · have hpost : (GAStorage.renovar s c u d).2 = s := by
          rw [GAStorage.renovar, GAStorage.renovarW, hl]
          simp [hr]
        rw [hpost]
        exact ⟨hub, hul, hco⟩
      · have hpost : (GAStorage.renovar s c u d).2 =
            GAStorage.updateLoanDueDate s c u d := by
          rw [GAStorage.renovar, GAStorage.renovarW, hl]
          simp [hr]
        rw [hpost]
        refine ⟨hub, ?_, ?_⟩
        · show ((setLoanDueDate s.loans c u d).map (fun l => l.codigo)).Nodup
          rw [setLoanDueDate_map_codigo]
          exact hul
        · intro x hx
          show x.disponible = true ↔
            x.codigo ∉ (setLoanDueDate s.loans c u d).map (fun l => l.codigo)
          rw [setLoanDueDate_map_codigo]
          exact hco x hx
  · intro c u
    rcases hl : GAStorage.findLoan s c u with _ | loan
    · have hpost : (GAStorage.devolver s c u).2 = s := by
        rw [GAStorage.devolver, GAStorage.devolverW, hl]
      rw [hpost]
      exact ⟨hub, hul, hco⟩
    · have hpost : (GAStorage.devolver s c u).2 =
          GAStorage.removeLoan (GAStorage.updateBookAvailability s c true) c u := by
        rw [GAStorage.devolver, GAStorage.devolverW, hl]
        rfl
      rw [hpost]
      rw [GAStorage.findLoan] at hl
      have hloanp := List.find?_some hl
      have hloanc : loan.codigo = c ∧ loan.userId = u := by simpa using hloanp
      have hloanmem : loan ∈ s.loans := List.mem_of_find?_eq_some hl
      refine ⟨?_, ?_, ?_⟩
      · show ((setAvailFirst s.books c true).map (fun b => b.codigo)).Nodup
        rw [setAvailFirst_map_codigo]
        exact hub
      · show ((s.loans.filter (fun l => !(l.codigo == c && l.userId == u))).map
          (fun l => l.codigo)).Nodup
        exact List.Nodup.sublist (List.Sublist.map _ (List.filter_sublist _)) hul
      · intro x hx
        show x.disponible = true ↔
          x.codigo ∉ (s.loans.filter (fun l => !(l.codigo == c && l.userId == u))).map
            (fun l => l.codigo)
        have hx₂ := (mem_setAvailFirst_uniq s.books c true hub x).1 hx
        rcases hx₂ with ⟨hxl, hxc⟩ | ⟨b, hbl, hbc, rfl⟩
        · rw [hco x hxl]
          constructor
          · intro hnot hmem
            obtain ⟨l₀, hl₀, heq₀⟩ := List.mem_map.1 hmem
            exact hnot (List.mem_map.2 ⟨l₀, ((mem_removeLoan_iff s.loans c u l₀).1 hl₀).1, heq₀⟩)
          · intro hnot hmem
            obtain ⟨l₀, hl₀, heq₀⟩ := List.mem_map.1 hmem
            refine hnot (List.mem_map.2 ⟨l₀, ?_, heq₀⟩)
            rw [mem_removeLoan_iff]
            refine ⟨hl₀, ?_⟩
            rintro ⟨hc₀, -⟩
            exact hxc (heq₀ ▸ hc₀)
        · constructor
          · intro hok hmem
            obtain ⟨l₀, hl₀, heq₀⟩ := List.mem_map.1 hmem
            have hc₀ : l₀.codigo = c := by
              rw [heq₀]
              exact hbc
            obtain ⟨hl₀mem, hl₀not⟩ := (mem_removeLoan_iff s.loans c u l₀).1 hl₀
            have hll : l₀ = loan :=
              List.inj_on_of_nodup_map hul hl₀mem hloanmem (by rw [hc₀, hloanc.1])
            refine hl₀not ⟨hc₀, ?_⟩
            rw [hll, hloanc.2]
          · intro _
            rfl
  · intro today c u
    rcases hb : GAStorage.findBook s c with _ | b
    · have hpost : (GAStorage.checkAndLoan today s c u).2 = s := by
        rw [GAStorage.checkAndLoan, GAStorage.checkAndLoanW, hb]
      rw [hpost]
      exact ⟨hub, hul, hco⟩
    · by_cases hd : b.disponible = false
      · have hpost : (GAStorage.checkAndLoan today s c u).2 = s := by
          rw [GAStorage.checkAndLoan, GAStorage.checkAndLoanW, hb]
          simp [hd]
        rw [hpost]
        exact ⟨hub, hul, hco⟩
      · rcases hl : GAStorage.findLoan s c u with _ | loan
        · have hpost : (GAStorage.checkAndLoan today s c u).2 =
              GAStorage.updateBookAvailability
                (GAStorage.addLoan s c u (todayPlusDays today 14)) c false := by
            rw [GAStorage.checkAndLoan, GAStorage.checkAndLoanW, hb]
            simp [hd, hl]
          rw [hpost]
          rw [GAStorage.findBook] at hb
          have hbp := List.find?_some hb
          have hbc : b.codigo = c := by simpa using hbp
          have hbmem : b ∈ s.books := List.mem_of_find?_eq_some hb
          have hdT : b.disponible = true := by simpa using hd
          have hcnotin : c ∉ s.loans.map (fun l => l.codigo) := by
            rw [← hbc]
            exact (hco b hbmem).1 hdT
          refine ⟨?_, ?_, ?_⟩
          · show ((setAvailFirst s.books c false).map (fun b => b.codigo)).Nodup
            rw [setAvailFirst_map_codigo]
            exact hub
          · show ((s.loans ++ [(⟨c, u, todayPlusDays today 14, 0⟩ : Loan)]).map
              (fun l => l.codigo)).Nodup
            rw [List.map_append, List.nodup_append]
            refine ⟨hul, by simp, ?_⟩
            intro a ha ha₂
            simp only [List.map_cons, List.map_nil, List.mem_singleton] at ha₂
            subst ha₂
            exact hcnotin ha
          · intro x hx
            show x.disponible = true ↔
              x.codigo ∉ (s.loans ++ [(⟨c, u, todayPlusDays today 14, 0⟩ : Loan)]).map
                (fun l => l.codigo)
            have hx₂ := (mem_setAvailFirst_uniq s.books c false hub x).1 hx
            rcases hx₂ with ⟨hxl, hxc⟩ | ⟨b₀, hb₀l, hb₀c, rfl⟩
            · rw [hco x hxl]
              constructor
              · intro hnot hmem
                rw [List.map_append, List.mem_append] at hmem
                rcases hmem with hmem | hmem
                · exact hnot hmem
                · simp only [List.map_cons, List.map_nil, List.mem_singleton] at hmem
                  exact hxc hmem
              · intro hnot hmem
                refine hnot ?_
                rw [List.map_append, List.mem_append]
                exact Or.inl hmem
            · constructor
              · intro hfda
                exact absurd hfda (by simp)
              · intro hnot
                exfalso
                refine hnot ?_
                rw [List.map_append, List.mem_append]
                right
                simp [hb₀c]
        · have hpost : (GAStorage.checkAndLoan today s c u).2 = s := by
            rw [GAStorage.checkAndLoan, GAStorage.checkAndLoanW, hb]
            simp [hd, hl]
          rw [hpost]
          exact ⟨hub, hul, hco⟩

theorem sm_operations_preserve_invariants_witness :
    (uniqueBooks ⟨[⟨"B1", "T", true⟩], [⟨"B2", "u1", 114, 0⟩]⟩ ∧
      uniqueLoans ⟨[⟨"B1", "T", true⟩], [⟨"B2", "u1", 114, 0⟩]⟩ ∧
      coherent ⟨[⟨"B1", "T", true⟩], [⟨"B2", "u1", 114, 0⟩]⟩) ∧
    (uniqueBooks (GAStorage.checkAndLoan 100
        ⟨[⟨"B1", "T", true⟩], [⟨"B2", "u1", 114, 0⟩]⟩ "B1" "u1").2 ∧
      uniqueLoans (GAStorage.checkAndLoan 100
        ⟨[⟨"B1", "T", true⟩], [⟨"B2", "u1", 114, 0⟩]⟩ "B1" "u1").2 ∧
      coherent (GAStorage.checkAndLoan 100
        ⟨[⟨"B1", "T", true⟩], [⟨"B2", "u1", 114, 0⟩]⟩ "B1" "u1").2) :=
  ⟨⟨by decide, by decide, by decide⟩,
    (sm_operations_preserve_invariants ⟨[⟨"B1", "T", true⟩], [⟨"B2", "u1", 114, 0⟩]⟩
      (by decide) (by decide) (by decide)).2.2 100 "B1" "u1"⟩

/-- C10: `devolver` does not require the book to exist: when a loan
`(code, userId)` is present but no book record with that code exists,
`devolver` still returns `ok = true`, removes the loan (the post-state is
exactly `removeLoan`, and no loan for the pair remains), and leaves the
books collection unchanged. -/
theorem devolver_missing_book_ok (s : SMState) (c u : String) (l : Loan)
    (hb : GAStorage.findBook s c = none)
    (hl : GAStorage.findLoan s c u = some l) :
    (GAStorage.devolver s c u).1.ok = true ∧
    ((GAStorage.devolver s c u).2).books = s.books ∧
    (GAStorage.devolver s c u).2 = GAStorage.removeLoan s c u ∧
    GAStorage.findLoan (GAStorage.devolver s c u).2 c u = none := by
  have hset : setAvailFirst s.books c true = s.books :=
    setAvailFirst_of_find?_none s.books c true hb
  have key : GAStorage.devolver s c u =
      (⟨true, none, some ⟨none, none, some true⟩⟩, GAStorage.removeLoan s c u) := by
    simp [GAStorage.devolver, GAStorage.devolverW, hl, GAStorage.updateBookAvailability,
      GAStorage.removeLoan, hset]
  rw [key]
  exact ⟨rfl, rfl, rfl, findLoan_removeLoan s c u⟩

/-- C5: whenever a PRESTAR (`checkAndLoan`) for `(code, user)` succeeds,
performing it and then `devolver` for the same pair succeeds and restores
Books and Loans exactly to the pre-PRESTAR state. -/
theorem prestar_devolver_roundtrip (today : Nat) (s : SMState) (c u : String)
    (h : (GAStorage.checkAndLoan today s c u).1.ok = true) :
    (GAStorage.devolver (GAStorage.checkAndLoan today s c u).2 c u).1.ok = true ∧
    (GAStorage.devolver (GAStorage.checkAndLoan today s c u).2 c u).2 = s := by
  obtain ⟨-, -, b, hb, hd, hl, heq⟩ :=
    GAStorage.checkAndLoanW_ok_inv true true today s c u h
  have h2 : (GAStorage.checkAndLoan today s c u).2 =
      GAStorage.updateBookAvailability
        (GAStorage.addLoan s c u (todayPlusDays today 14)) c false := by
    rw [GAStorage.checkAndLoan, heq]
  rw [h2]
  rw [GAStorage.findBook] at hb
  rw [GAStorage.findLoan] at hl
  have hfl : GAStorage.findLoan
      (GAStorage.updateBookAvailability
        (GAStorage.addLoan s c u (todayPlusDays today 14)) c false) c u =
      some ⟨c, u, todayPlusDays today 14, 0⟩ := by
    rw [GAStorage.findLoan]
    show (s.loans ++ [(⟨c, u, todayPlusDays today 14, 0⟩ : Loan)]).find?
        (fun l => l.codigo == c && l.userId == u) =
      some ⟨c, u, todayPlusDays today 14, 0⟩
    rw [find?_append_none _ _ _ hl]
    simp [List.find?_cons]
  have hdev : GAStorage.devolver
      (GAStorage.updateBookAvailability
        (GAStorage.addLoan s c u (todayPlusDays today 14)) c false) c u =
      (⟨true, none, some ⟨none, none, some true⟩⟩,
        GAStorage.removeLoan
          (GAStorage.updateBookAvailability
            (GAStorage.updateBookAvailability
              (GAStorage.addLoan s c u (todayPlusDays today 14)) c false) c true) c u) := by
    rw [GAStorage.devolver, GAStorage.devolverW, hfl]
    simp
  rw [hdev]
  refine ⟨rfl, ?_⟩
  have hbooks : setAvailFirst (setAvailFirst s.books c false) c true = s.books :=
    setAvailFirst_twice s.books c b hb hd
  have hloans : (s.loans ++ [(⟨c, u, todayPlusDays today 14, 0⟩ : Loan)]).filter
      (fun l => !(l.codigo == c && l.userId == u)) = s.loans := by
    rw [List.filter_append, filter_id_of_find?_none s.loans _ hl]
    simp
  show (⟨setAvailFirst (setAvailFirst s.books c false) c true,
      (s.loans ++ [(⟨c, u, todayPlusDays today 14, 0⟩ : Loan)]).filter
        (fun l => !(l.codigo == c && l.userId == u))⟩ : SMState) = s
  rw [hbooks, hloans]

theorem prestar_devolver_roundtrip_witness :
    (GAStorage.devolver
      (GAStorage.checkAndLoan 100 ⟨[⟨"B1", "T", true⟩], []⟩ "B1" "u1").2 "B1" "u1").1.ok
      = true ∧
    (GAStorage.devolver
      (GAStorage.checkAndLoan 100 ⟨[⟨"B1", "T", true⟩], []⟩ "B1" "u1").2 "B1" "u1").2 =
      ⟨[⟨"B1", "T", true⟩], []⟩ :=
  prestar_devolver_roundtrip 100 ⟨[⟨"B1", "T", true⟩], []⟩ "B1" "u1" (by decide)

theorem devolver_missing_book_ok_witness :
    (GAStorage.devolver ⟨[], [⟨"B1", "u1", 14, 0⟩]⟩ "B1" "u1").1.ok = true ∧
    ((GAStorage.devolver ⟨[], [⟨"B1", "u1", 14, 0⟩]⟩ "B1" "u1").2).books = [] ∧
    (GAStorage.devolver ⟨[], [⟨"B1", "u1", 14, 0⟩]⟩ "B1" "u1").2 =
      GAStorage.removeLoan ⟨[], [⟨"B1", "u1", 14, 0⟩]⟩ "B1" "u1" ∧
    GAStorage.findLoan (GAStorage.devolver ⟨[], [⟨"B1", "u1", 14, 0⟩]⟩ "B1" "u1").2
      "B1" "u1" = none :=
  devolver_missing_book_ok ⟨[], [⟨"B1", "u1", 14, 0⟩]⟩ "B1" "u1" ⟨"B1", "u1", 14, 0⟩
    (by decide) (by decide)
